import Mathlib

set_option linter.unnecessarySeqFocus false

/-!
# Verification of the edge-device form block

A shallow embedding of `src/blocks/form/form.ts`: the conditional-visibility
engine (`toggleConditional`, `initConditionals`), the submission pipeline
(`generatePayload`, `toggleForm`, `handleSubmit`), the field builder's help
text wiring (`buildField`, `writeHelpText`) and the OTP sub-flow
(`initOtpBehavior`).  JavaScript strings are `String`, DOM attributes are
`Option String` (absent = `none`), element `dataset` entries likewise.
-/

namespace FormBlock

/-! ## JavaScript string primitives -/

/-- JS truthiness of a string: only the empty string is falsy. -/
def jsTruthyStr (s : String) : Bool := s != ""

/-- JS truthiness of a possibly-absent string (e.g. a `dataset` entry):
`undefined` and `""` are falsy. -/
def jsTruthy : Option String → Bool
  | none => false
  | some s => jsTruthyStr s

/-- Tests whether `sub` is a prefix of the second list (character-wise). -/
def prefixMatch : List Char → List Char → Bool
  | [], _ => true
  | _ :: _, [] => false
  | a :: as, b :: bs => a == b && prefixMatch as bs

/-- Tests whether `sub` occurs as a contiguous run somewhere in the second list. -/
def subMatch (sub : List Char) : List Char → Bool
  | [] => prefixMatch sub []
  | b :: bs => prefixMatch sub (b :: bs) || subMatch sub bs

/-- JS `s.includes(sub)`: substring containment. -/
def jsIncludes (s sub : String) : Bool := subMatch sub.toList s.toList

/-! ## Normalization helpers

Modelled from the spec: the repository imports `toClassName` and
`toCamelCase` from `src/utils/`, which is not part of the provided sources.
The spec describes `toClassName` as the "class-name-safe" normalization:
lower-casing plus whitespace/punctuation collapse.  We model it as the
standard class-name sanitizer: lower-case ASCII letters kept, digits kept,
every other character replaced by `-`, runs of `-` collapsed, and leading or
trailing `-` stripped. -/

/-- ASCII lower-casing of one character. -/
def lowerChar (c : Char) : Char :=
  if 'A' ≤ c ∧ c ≤ 'Z' then Char.ofNat (c.toNat + 32) else c

/-- Is this character kept verbatim by the class-name normalization
(after lower-casing)? -/
def keepChar (c : Char) : Bool :=
  ('a' ≤ c && c ≤ 'z') || ('0' ≤ c && c ≤ '9')

/-- Replace every non-kept character by a dash. -/
def dashify (cs : List Char) : List Char :=
  cs.map (fun c => let l := lowerChar c; if keepChar l then l else '-')

/-- Collapse consecutive dashes into one. -/
def collapseDashes : List Char → List Char
  | [] => []
  | '-' :: '-' :: rest => collapseDashes ('-' :: rest)
  | c :: rest => c :: collapseDashes rest

/-- Drop leading dashes. -/
def dropLeadDashes : List Char → List Char
  | '-' :: rest => dropLeadDashes rest
  | cs => cs

/-- Modelled from the spec: `toClassName` from `src/utils/toClassName`
(not under the provided sources) — the class-name-safe normalization:
lower-case, map whitespace/punctuation to `-`, collapse dash runs, strip
dashes at both ends. -/
def toClassName (s : String) : String :=
  String.mk ((dropLeadDashes (collapseDashes (dashify s.toList))).reverse
    |> dropLeadDashes |>.reverse)

/-- Rebuild camelCase from the dashed class name: each `-x` becomes `X`. -/
def camelize : List Char → List Char
  | [] => []
  | '-' :: c :: rest => c.toUpper :: camelize rest
  | c :: rest => c :: camelize rest

/-- Modelled from the spec: `toCamelCase` from `src/utils/toCamelCase`
(not under the provided sources) — `toClassName` followed by turning each
dash-letter pair into an upper-case letter. -/
def toCamelCase (s : String) : String :=
  String.mk (camelize (toClassName s).toList)

/-! ## Form control model

One record per form control, carrying the attributes the form block reads
and writes: the submission-relevant fields of `form.elements` entries
(`name`, `type`, `value`, `checked`, `disabled`) and the
conditional-visibility state (`required`, `dataset.originalRequired`,
`tabindex` on the control; `aria-hidden` and `dataset.condition` on its
`.form-field` wrapper). -/

structure FormElement where
  name : String
  ftype : String
  value : String
  checked : Bool
  disabled : Bool
  required : Bool
  originalRequired : Option String
  tabindex : Option String
  fieldAriaHidden : Option String
  fieldCondition : Option String
  deriving Repr, DecidableEq

/-- JS `String(b)`. -/
def boolString (b : Bool) : String := if b then "true" else "false"

/-- The condition test both engine paths perform on a controlled field:
`condition.includes(toClassName(value))`, `false` when the wrapper carries
no `data-condition`. -/
def conditionCheck (condition : Option String) (value : String) : Bool :=
  match condition with
  | some c => jsIncludes c (toClassName value)
  | none => false

/-- Per-field body of `toggleConditional` (form.ts lines 329–347), run for
each controlled input when the change event's target name is a known
controller, with `v` the target's value. -/
def toggleConditionalField (v : String) (f : FormElement) : FormElement :=
  let met := conditionCheck f.fieldCondition v
  let f := { f with fieldAriaHidden := some (boolString !met) }
  if met then
    let f := if f.originalRequired == some "true" then { f with required := true } else f
    { f with tabindex := none }
  else
    { f with required := false, tabindex := some "-1" }

/-- Per-field body of `initConditionals` when the controller resolved to a
(JS-truthy) value `v` (form.ts lines 373–397). -/
def initConditionalFieldResolved (v : String) (f : FormElement) : FormElement :=
  let met := conditionCheck f.fieldCondition v
  let f := { f with fieldAriaHidden := some (boolString !met) }
  let f :=
    if f.required then
      let f := if !jsTruthy f.originalRequired then { f with originalRequired := some "true" } else f
      if !met then { f with required := false } else f
    else f
  if met then { f with tabindex := none } else { f with tabindex := some "-1" }

/-- Per-field body of `initConditionals` when no controller value resolved
(form.ts lines 399–415): hide, snapshot-and-drop `required`, leave the tab
order. -/
def initConditionalFieldUnresolved (f : FormElement) : FormElement :=
  let f := { f with fieldAriaHidden := some "true" }
  let f :=
    if f.required then
      let f := if !jsTruthy f.originalRequired then { f with originalRequired := some "true" } else f
      { f with required := false }
    else f
  { f with tabindex := some "-1" }

/-- Dispatch of `initConditionals` for one controlled field: the resolved
branch runs only when the resolved `controllerValue` is JS-truthy
(form.ts line 370 `if (controllerValue)`); `none` (no checked input and no
select) and `some ""` both take the hidden-all branch. -/
def initConditionalField (controllerValue : Option String) (f : FormElement) : FormElement :=
  if jsTruthy controllerValue then
    initConditionalFieldResolved (controllerValue.getD "") f
  else
    initConditionalFieldUnresolved f

/-! ## Submission pipeline -/

/-- The flat payload: a JS object modelled as an insertion-ordered
association list with last-write-wins assignment. -/
abbrev Payload : Type := List (String × String)

/-- JS property read `payload[k]`: `none` models `undefined`. -/
def getKey : Payload → String → Option String
  | [], _ => none
  | (k', v) :: p, k => if k' == k then some v else getKey p k

/-- JS property write `payload[k] = v`: overwrite in place when the key is
present (object keys are unique), else append in insertion order. -/
def setKey : Payload → String → String → Payload
  | [], k, v => [(k, v)]
  | (k', v') :: p, k, v =>
    if k' == k then (k, v) :: p else (k', v') :: setKey p k v

/-- One iteration of the `generatePayload` loop (form.ts lines 496–511)
over a single `form.elements` entry. -/
def payloadStep (p : Payload) (f : FormElement) : Payload :=
  if jsTruthyStr f.name && !f.disabled then
    if f.ftype == "radio" then
      if f.checked then setKey p f.name f.value else p
    else if f.ftype == "checkbox" then
      if f.checked then
        if jsTruthy (getKey p f.name) then
          setKey p f.name ((getKey p f.name).getD "" ++ "," ++ f.value)
        else setKey p f.name f.value
      else p
    else setKey p f.name f.value
  else p

/-- Model of `generatePayload` (form.ts lines 494–513): fold the per-element rule
over `form.elements` in DOM order, starting from the empty object. -/
def generatePayload (elements : List FormElement) : Payload :=
  List.foldl payloadStep [] elements

/-- Model of `toggleForm` (form.ts lines 480–487): set `disabled` on every control. -/
def toggleForm (disabled : Bool) (controls : List FormElement) : List FormElement :=
  controls.map (fun c => { c with disabled := disabled })

/-- The four ways a submission attempt can settle (form.ts lines 520–546):
a 2xx response, a missing `data-action` (throws before the fetch), a
transport failure (fetch rejects), or a non-2xx response (throws after
reading the body). -/
inductive SubmitOutcome
  | success
  | missingAction
  | transportError
  | httpError
  deriving Repr, DecidableEq

/-- Result of one `handleSubmit` run: the final control states, the
navigation performed (the `confirmation` URL on success, if configured)
and whether the error path logged to the console. -/
structure SubmitResult where
  controls : List FormElement
  navigated : Option String
  loggedError : Bool
  deriving Repr, DecidableEq

/-- Model of `handleSubmit` (form.ts lines 520–546): serialize, disable the form,
run the transport, navigate on ok+confirmation, log on any thrown error,
and re-enable the form in the `finally` block on every path. -/
def handleSubmit (confirmation : Option String) (outcome : SubmitOutcome)
    (controls : List FormElement) : SubmitResult :=
  let disabledControls := toggleForm true controls
  let afterTry : List FormElement × Option String × Bool :=
    match outcome with
    | .success =>
      (disabledControls, if jsTruthy confirmation then confirmation else none, false)
    | .missingAction => (disabledControls, none, true)
    | .transportError => (disabledControls, none, true)
    | .httpError => (disabledControls, none, true)
  { controls := toggleForm false afterTry.1
    navigated := afterTry.2.1
    loggedError := afterTry.2.2 }

/-! ## Field builder

The field descriptor (`FieldConfig` in form.ts) and the subtree `buildField`
produces for it.  The subtree is modelled as the ordered child list of the
returned wrapper, abstracting each child to the data the claims read: tag
kind, generated id, `aria-describedby`, help-text id.  Attributes the
claims never read (`placeholder`, `pattern`, `maxlength`, `inputmode`,
`rows`, CSS classes, and select option population) are left out. -/

structure FieldConfig where
  type : Option String
  field : Option String
  label : Option String
  help : Option String
  required : Option String
  defaultValue : Option String
  options : Option String
  conditional : Option String
  deriving Repr, DecidableEq

/-- JS `a || b` for a possibly-absent string with a literal fallback. -/
def jsOr (o : Option String) (fallback : String) : String :=
  match o with
  | some s => if jsTruthyStr s then s else fallback
  | none => fallback

/-- Model of `generateId` (form.ts lines 46–49). -/
def generateId (name : String) (option : Option String) : String :=
  let id := toCamelCase name
  if jsTruthy option then id ++ "-" ++ toCamelCase (option.getD "") else id

/-- One child of a built field subtree. -/
inductive FNode where
  | labelNode (text : String) (forId : Option String) (requiredMark : Bool)
  | legendNode (text : String) (requiredMark : Bool)
  | optionLabel (text : String) (inputId : String) (inputName : String) (isChecked : Bool)
  | controlNode (tag : String) (id : String) (describedby : Option String)
  | buttonNode (text : String) (btype : String)
  | helpNode (id : String) (text : String)
  | emptyDiv
  deriving Repr, DecidableEq

/-- Model of `writeHelpText` (form.ts lines 57–62): a paragraph whose id is
the input id plus the fixed `-help` suffix. -/
def writeHelpText (text : String) (inputId : String) : FNode :=
  .helpNode (inputId ++ "-help") text

/-- Model of `buildLabel` (form.ts lines 72–83). -/
def buildLabel (text : String) (ltype : String) (id : Option String) (required : Bool) : FNode :=
  if ltype == "legend" then .legendNode text required
  else .labelNode text id required

/-- Result of `buildField`: the wrapper's conditional dataset tags and its
ordered children. -/
structure BuiltField where
  dataController : Option String
  dataCondition : Option String
  children : List FNode
  deriving Repr, DecidableEq

/-- JS `controlled.split('-')[0]`: the characters before the first dash. -/
def controllerOf (controlled : String) : String :=
  String.mk (controlled.toList.takeWhile (fun c => c != '-'))

/-- Split a character list at every comma. -/
def splitCommaAux (cur : List Char) : List Char → List (List Char)
  | [] => [cur.reverse]
  | c :: cs =>
    if c == ',' then cur.reverse :: splitCommaAux [] cs
    else splitCommaAux (c :: cur) cs

/-- JS `options.split(',')`. -/
def splitComma (s : String) : List String :=
  (splitCommaAux [] s.toList).map String.mk

/-- ASCII whitespace, as JS `trim` strips it. -/
def isSpaceChar (c : Char) : Bool :=
  c == ' ' || c == '\t' || c == '\n' || c == '\r'

/-- JS `s.trim()`. -/
def jsTrim (s : String) : String :=
  String.mk (((s.toList.dropWhile isSpaceChar).reverse.dropWhile isSpaceChar).reverse)

/-- JS `options.split(',')` followed by per-entry `trim`
(form.ts line 178). -/
def splitOptions (options : String) : List String :=
  (splitComma options).map jsTrim

/-- Model of `buildOptionInput` (form.ts lines 141–156), reduced to the data
the option label carries: id, name and default-checked state. -/
def buildOptionInput (field : FieldConfig) (option : String) : FNode :=
  .optionLabel option (generateId (jsOr field.field "field") (some option))
    (generateId (jsOr field.field "field") none)
    (field.defaultValue == some option)

/-- Model of `buildOptions` (form.ts lines 164–188): a fieldset with a
legend and one labeled option input per comma-separated entry; `none` when
no options were supplied. -/
def buildOptions (field : FieldConfig) (controlled : Option String) : Option BuiltField :=
  if !jsTruthy field.options then none
  else some
    { dataController := controlled.map controllerOf
      dataCondition := controlled
      children :=
        buildLabel (jsOr field.label "") "legend" none (field.required == some "true")
          :: (splitOptions (field.options.getD "")).map (buildOptionInput field) }

/-- Model of `buildToggle` (form.ts lines 275–301): a wrapper holding one
labeled checkbox (the option value defaulting to `"true"`). -/
def buildToggle (field : FieldConfig) (controlled : Option String) : BuiltField :=
  { dataController := controlled.map controllerOf
    dataCondition := controlled
    children :=
      [.optionLabel (jsOr field.label "")
        (generateId (jsOr field.field "field") (some (jsOr field.defaultValue "true")))
        (generateId (jsOr field.field "field") none)
        (field.defaultValue == some (jsOr field.defaultValue "true"))] }

/-- Model of `buildSelect` (form.ts lines 222–267): a wrapper with a label
and a select control; `none` when no options were supplied.  The select's
own option children (placeholder, literal or fetched entries) stay inside
the select and are not modelled. -/
def buildSelect (field : FieldConfig) (controlled : Option String) : Option BuiltField :=
  if !jsTruthy field.options then none
  else some
    { dataController := controlled.map controllerOf
      dataCondition := controlled
      children :=
        [buildLabel (jsOr field.label "") "label"
          (some (generateId (jsOr field.field "field") none)) (field.required == some "true"),
         .controlNode "select" (generateId (jsOr field.field "field") none) none] }

/-- Model of `buildField` (form.ts lines 593–667): variant dispatch on
`type`, including where the help text lands in each branch and which
control receives `aria-describedby`. -/
def buildField (field : FieldConfig) : BuiltField :=
  let controlled := if jsTruthy field.conditional then field.conditional else none
  let safeFieldName := jsOr field.field "field"
  if field.type == some "hidden" then
    { dataController := none, dataCondition := none
      children := [.controlNode "input" (generateId safeFieldName none) none] }
  else if field.type == some "submit" || field.type == some "reset" then
    { dataController := none, dataCondition := none
      children := [.buttonNode (jsOr field.label "") (jsOr field.type "button")] }
  else if field.type == some "radio" || field.type == some "checkbox" then
    match buildOptions field controlled with
    | some fs =>
      if jsTruthy field.help then
        { fs with children :=
            fs.children ++ [writeHelpText (field.help.getD "") (generateId safeFieldName none)] }
      else fs
    | none => { dataController := none, dataCondition := none, children := [.emptyDiv] }
  else if field.type == some "toggle" then
    let toggle := buildToggle field controlled
    if jsTruthy field.help then
      { toggle with children :=
          toggle.children ++ [writeHelpText (field.help.getD "") (generateId safeFieldName none)] }
    else toggle
  else if field.type == some "select" then
    match buildSelect field controlled with
    | some sel =>
      if jsTruthy field.help then
        { sel with children :=
            sel.children ++ [writeHelpText (field.help.getD "") (generateId safeFieldName none)] }
      else sel
    | none => { dataController := none, dataCondition := none, children := [.emptyDiv] }
  else
    let inputId := generateId safeFieldName none
    let base := [buildLabel (jsOr field.label "") "label" (some inputId)
      (field.required == some "true")]
    let base :=
      if jsTruthy field.help then base ++ [writeHelpText (field.help.getD "") inputId] else base
    let describedby := if jsTruthy field.help then some (inputId ++ "-help") else none
    let control := .controlNode (if field.type == some "textarea" then "textarea" else "input")
      inputId describedby
    let children :=
      if field.type == some "textarea" then base ++ [control]
      else
        match base with
        | first :: rest => first :: control :: rest
        | [] => [control]
    { dataController := controlled.map controllerOf
      dataCondition := controlled
      children := children }

/-- Is this child a rendered form control (input, textarea, select, or a
labeled option input)? -/
def isControlNode : FNode → Bool
  | .controlNode _ _ _ => true
  | .optionLabel _ _ _ _ => true
  | _ => false

/-- Is this child a help-text paragraph? -/
def isHelpNode : FNode → Bool
  | .helpNode _ _ => true
  | _ => false

/-- Index of the first child satisfying `p`, counting from `i`. -/
def firstIdxFrom (p : FNode → Bool) : Nat → List FNode → Option Nat
  | _, [] => none
  | i, n :: ns => if p n then some i else firstIdxFrom p (i + 1) ns

/-- Does a help-text child precede every rendered control in the subtree? -/
def helpBeforeControl (ns : List FNode) : Bool :=
  match firstIdxFrom isHelpNode 0 ns, firstIdxFrom isControlNode 0 ns with
  | some h, some c => decide (h < c)
  | _, _ => false

/-- The ids of the help-text children of a subtree, in order. -/
def helpIds : List FNode → List String
  | [] => []
  | FNode.helpNode i _ :: ns => i :: helpIds ns
  | _ :: ns => helpIds ns

/-- The `aria-describedby` of the first input/textarea/select child, if
any. -/
def firstControlDescribedby : List FNode → Option String
  | [] => none
  | FNode.controlNode _ _ d :: _ => d
  | _ :: ns => firstControlDescribedby ns

/-! ## OTP sub-flow -/

/-- Fixed cooldown duration (form.ts line 713). -/
def resendTimerSeconds : Int := 30

/-- Fixed resend limit (form.ts line 714). -/
def resendLimit : Nat := 3

/-- Which part of the resend affordance is displayed: the countdown loader
(`loading`), the resend button (`ready`), the limit message (`limit`), or
none of them (after `resetVisibility`). -/
inductive ResendVisibility where
  | neutral
  | loading
  | ready
  | limit
  deriving Repr, DecidableEq

/-- The OTP sub-flow session state: resend counter, cooldown timer closure
state (`timerStarted` is the started flag, `timerActive` models a live
`setInterval` id, `remaining` the countdown), the affordance display, and
the log of dispatched DOM events. -/
structure OtpState where
  resendCount : Nat
  timerStarted : Bool
  timerActive : Bool
  remaining : Int
  visibility : ResendVisibility
  events : List String
  deriving Repr, DecidableEq

/-- State after `initOtpBehavior` builds the affordance and calls
`resetVisibility()` (form.ts line 794). -/
def otpAttachState : OtpState :=
  { resendCount := 0, timerStarted := false, timerActive := false
    remaining := 0, visibility := .neutral, events := [] }

/-- Model of `tick` (form.ts lines 778–788): when the countdown has reached
zero, clear the interval and show the resend button; always decrement. -/
def timerTick (s : OtpState) : OtpState :=
  let s := if s.remaining ≤ 0 then { s with timerActive := false, visibility := .ready } else s
  { s with remaining := s.remaining - 1 }

/-- Model of `startTimer` (form.ts lines 771–792): a no-op when the started
flag is set — and nothing ever clears that flag; otherwise arm the
countdown, show the loader, run one synchronous tick and start the
interval. -/
def startTimer (duration : Int) (s : OtpState) : OtpState :=
  if s.timerStarted then s
  else
    let s := { s with timerStarted := true, remaining := duration, visibility := .loading }
    let s := timerTick s
    { s with timerActive := true }

/-- One second of wall-clock time: the interval callback fires only while
the interval is live. -/
def elapseSecond (s : OtpState) : OtpState :=
  if s.timerActive then timerTick s else s

/-- Elapse `n` seconds. -/
def elapseSeconds : Nat → OtpState → OtpState
  | 0, s => s
  | n + 1, s => elapseSeconds n (elapseSecond s)

/-- Model of the resend-button click handler (form.ts lines 807–816):
bump the counter; past the limit show the limit message, otherwise dispatch
a bubbling `otp:resend` event and call `startTimer` again. -/
def resendClick (s : OtpState) : OtpState :=
  let s := { s with resendCount := s.resendCount + 1 }
  if s.resendCount > resendLimit then { s with visibility := .limit }
  else
    let s := { s with events := s.events ++ ["otp:resend"] }
    startTimer resendTimerSeconds s

/-- The form-level state `initOtpBehavior` can observe and mutate: whether
the lookups at its top succeed, the mobile input's current digit count, the
nodes it appends into the otp field, the listeners it attaches, and the
resend machinery. -/
structure OtpFormState where
  hasOtpInput : Bool
  otpInFormField : Bool
  hasMobileInput : Bool
  mobileDigitCount : Nat
  appendedNodes : List String
  listeners : List String
  otp : OtpState
  deriving Repr, DecidableEq

/-- Model of `initOtpBehavior` (form.ts lines 711–851): return untouched
when the form has no otp-named input or that input has no `.form-field`
ancestor; otherwise append the resend affordance and retry message, reset
the affordance display, start (or arm on the mobile input) the cooldown,
and attach the click and submit listeners. -/
def initOtpBehavior (form : OtpFormState) : OtpFormState :=
  if !form.hasOtpInput then form
  else if !form.otpInFormField then form
  else
    let form := { form with
      appendedNodes := form.appendedNodes ++ ["otp-resend", "otp-verify__message"]
      otp := { form.otp with visibility := .neutral } }
    let form :=
      if form.hasMobileInput then
        let form := { form with listeners := form.listeners ++ ["mobile:input"] }
        if form.mobileDigitCount ≥ 10 then
          { form with otp := startTimer resendTimerSeconds form.otp }
        else form
      else { form with otp := startTimer resendTimerSeconds form.otp }
    { form with listeners :=
        form.listeners ++ ["resendButton:click", "form:submit", "form:submit"] }

/-- State read and written by the OTP verification submit listener
(form.ts lines 829–850). -/
structure OtpSubmitState where
  otpValue : String
  formValid : Bool
  firstInvalid : Option String
  retryVisible : Bool
  focused : Option String
  ariaInvalidSet : Bool
  location : Option String
  deriving Repr, DecidableEq

/-- Fixed OTP success destination (form.ts line 724). -/
def otpSuccessRedirect : String := "/thank-you"

/-- Model of the OTP verification submit listener (form.ts lines 829–850):
hide the retry message, bail out to the first invalid control on a
constraint-validation failure, then compare against the sentinel: a match
navigates, a mismatch shows the retry message and refocuses the otp input
without touching its value. -/
def otpVerifySubmit (s : OtpSubmitState) : OtpSubmitState :=
  let s := { s with retryVisible := false }
  if !s.formValid then
    match s.firstInvalid with
    | some fi => { s with focused := some fi, ariaInvalidSet := true }
    | none => s
  else if s.otpValue == "12345" then
    { s with location := some otpSuccessRedirect }
  else
    { s with retryVisible := true, focused := some "otp" }

/-! ## Reference definitions and example inputs -/

/-- The matcher the spec describes, stated from the spec's words for
comparison with the code's `conditionCheck`: the class-name-safe
normalization applied to the condition string as well as to the value
before the substring test. -/
def conditionCheckSpec (condition : Option String) (value : String) : Bool :=
  match condition with
  | some c => jsIncludes (toClassName c) (toClassName value)
  | none => false

/-- Comma-join, as the spec words it: the values joined by single commas. -/
def commaJoin : List String → String
  | [] => ""
  | [v] => v
  | v :: vs => v ++ "," ++ commaJoin vs

/-- The checked values among the controls named `n`, in DOM order. -/
def checkedValuesFor (n : String) (es : List FormElement) : List String :=
  (es.filter (fun e => e.name == n && e.checked)).map (fun e => e.value)

/-- Sequence of change-event updates applied to one controlled field. -/
def applyToggles (vs : List String) (f : FormElement) : FormElement :=
  vs.foldl (fun s v => toggleConditionalField v s) f

/-- A controlled text control as the builder creates it: conditional on
`plan-pro`, originally required, no snapshot taken yet. -/
def exampleControlled : FormElement :=
  { name := "email", ftype := "text", value := "me@example.com"
    checked := false, disabled := false, required := true
    originalRequired := none, tabindex := none
    fieldAriaHidden := none, fieldCondition := some "plan-pro" }

/-- A controlled text control whose author wrote the condition token in
mixed case. -/
def exampleMixedCase : FormElement :=
  { exampleControlled with fieldCondition := some "Plan-Pro" }

/-- A checkbox control of a two-member group. -/
def exampleCheckbox : FormElement :=
  { name := "interests", ftype := "checkbox", value := "sports"
    checked := true, disabled := false, required := false
    originalRequired := none, tabindex := none
    fieldAriaHidden := none, fieldCondition := none }

/-- How the checkbox branch of `generatePayload` extends the value already
accumulated under a name: comma-append onto a truthy existing value,
otherwise start fresh. -/
def accAppend (acc : Option String) (v : String) : String :=
  if jsTruthy acc then acc.getD "" ++ "," ++ v else v

/-- Accumulated result of running the checkbox branch over a list of
checked values, starting from what the payload already holds. -/
def joinAcc : Option String → List String → Option String
  | acc, [] => acc
  | acc, v :: vs => joinAcc (some (accAppend acc v)) vs

/-- A field descriptor with a label, a help text and the given type,
identifier and options, as the Field Builder claims exercise it. -/
def mkHelpedField (t name htext : String) (opts : Option String) : FieldConfig :=
  { type := some t, field := some name, label := some "L", help := some htext
    required := none, defaultValue := none, options := opts, conditional := none }

/-- A valid-constraint OTP submit with a wrong code and no prior
navigation. -/
def exampleOtpSubmit : OtpSubmitState :=
  { otpValue := "11111", formValid := true, firstInvalid := none
    retryVisible := false, focused := none, ariaInvalidSet := false
    location := none }

/-- A form with no input named `otp`. -/
def exampleNoOtpForm : OtpFormState :=
  { hasOtpInput := false, otpInFormField := false, hasMobileInput := false
    mobileDigitCount := 0, appendedNodes := [], listeners := []
    otp := otpAttachState }

/-- The OTP session after attach (no mobile input, so the cooldown starts
immediately) once the full 30-second cooldown has elapsed: the resend
affordance has reached its ready state. -/
def otpReadyState : OtpState :=
  elapseSeconds 30 (startTimer resendTimerSeconds otpAttachState)

/-! ## Shared lemmas -/

/-- A nonempty string is JS-truthy. -/
lemma jsTruthyStr_of_ne {s : String} (h : s ≠ "") : jsTruthyStr s = true := by
  simp [jsTruthyStr, h]

/-- Both branches of the update path leave the same `aria-hidden` value:
the string form of the negated condition test. -/
lemma toggle_fieldAriaHidden (v : String) (f : FormElement) :
    (toggleConditionalField v f).fieldAriaHidden
      = some (boolString !(conditionCheck f.fieldCondition v)) := by
  cases h : conditionCheck f.fieldCondition v <;> simp [toggleConditionalField, h] <;>
    split <;> rfl

/-- The resolved initialization branch writes the same `aria-hidden` value
as the update path. -/
lemma initResolved_fieldAriaHidden (v : String) (f : FormElement) :
    (initConditionalFieldResolved v f).fieldAriaHidden
      = some (boolString !(conditionCheck f.fieldCondition v)) := by
  cases h : conditionCheck f.fieldCondition v <;> simp [initConditionalFieldResolved, h] <;>
    split_ifs <;> rfl

/-- The update path never touches the snapshot, the condition string, or
the submission-relevant attributes. -/
lemma toggle_preserves (v : String) (f : FormElement) :
    (toggleConditionalField v f).originalRequired = f.originalRequired
    ∧ (toggleConditionalField v f).fieldCondition = f.fieldCondition
    ∧ (toggleConditionalField v f).disabled = f.disabled
    ∧ (toggleConditionalField v f).name = f.name
    ∧ (toggleConditionalField v f).value = f.value
    ∧ (toggleConditionalField v f).checked = f.checked := by
  cases h : conditionCheck f.fieldCondition v <;> simp [toggleConditionalField, h] <;>
    split_ifs <;> simp

/-- Change-event sequences never touch the snapshot or the condition. -/
lemma applyToggles_preserves (vs : List String) (f : FormElement) :
    (applyToggles vs f).originalRequired = f.originalRequired
    ∧ (applyToggles vs f).fieldCondition = f.fieldCondition := by
  induction vs generalizing f with
  | nil => exact ⟨rfl, rfl⟩
  | cons v vs ih =>
    have hp := toggle_preserves v f
    have := ih (toggleConditionalField v f)
    simp only [applyToggles, List.foldl_cons] at *
    exact ⟨this.1.trans hp.1, this.2.trans hp.2.1⟩

/-- Initialization snapshots an originally-required field exactly once:
whichever branch runs, a required field with no snapshot ends with
`data-original-required="true"`, and the condition string is untouched. -/
lemma init_snapshot (cv : Option String) (f : FormElement)
    (hreq : f.required = true) (horig : f.originalRequired = none) :
    (initConditionalField cv f).originalRequired = some "true"
    ∧ (initConditionalField cv f).fieldCondition = f.fieldCondition := by
  unfold initConditionalField initConditionalFieldResolved initConditionalFieldUnresolved
  split <;> simp [hreq, horig, jsTruthy] <;> split_ifs <;> simp

/-- Once the snapshot reads `"true"`, the update path computes `required`
as exactly the condition test. -/
lemma toggle_required_of_snapshot (v : String) (f : FormElement)
    (h : f.originalRequired = some "true") :
    (toggleConditionalField v f).required = conditionCheck f.fieldCondition v := by
  cases hm : conditionCheck f.fieldCondition v <;>
    simp [toggleConditionalField, hm, h]

/-! ## Claims -/

/-- C1, counterexample.  The claim says the condition match normalizes both
the condition string and the controller value.  The code normalizes only
the value: with the author-written condition token `Plan-Pro` and
controller value `Pro`, a both-sides-normalized matcher matches, yet both
the update path and the resolved initialization path hide the field. -/
theorem condition_string_not_normalized :
    conditionCheck (some "Plan-Pro") "Pro" = false
    ∧ conditionCheckSpec (some "Plan-Pro") "Pro" = true
    ∧ (toggleConditionalField "Pro" exampleMixedCase).fieldAriaHidden = some "true"
    ∧ (initConditionalFieldResolved "Pro" exampleMixedCase).fieldAriaHidden = some "true" := by
  refine ⟨rfl, rfl, rfl, rfl⟩

/-- C1, amended.  Every visibility computation of both engine paths decides
the match by one function: the class-name-safe normalization is applied to
the controller's value only, and the result is substring-tested against the
as-authored condition string.  A value with spaces or mixed case is
normalized before comparison; the condition string is not. -/
theorem conditional_match_normalizes_value_only (f : FormElement) (v : String) :
    (toggleConditionalField v f).fieldAriaHidden
      = some (boolString !(conditionCheck f.fieldCondition v))
    ∧ (initConditionalFieldResolved v f).fieldAriaHidden
      = some (boolString !(conditionCheck f.fieldCondition v))
    ∧ ∀ c : String, conditionCheck (some c) v = jsIncludes c (toClassName v) := by
  exact ⟨toggle_fieldAriaHidden v f, initResolved_fieldAriaHidden v f, fun c => rfl⟩

/-- C2.  A controlled field that originally carried `required` (and, as
freshly built, no snapshot) round-trips through any sequence of hide/show
transitions: after initialization with any resolved-or-not controller value
and any list of change events, one more change event leaves `required`
equal to exactly the condition test on its value — restored to `true` when
the field shows, removed when it hides — and `aria-hidden` consistent. -/
theorem original_required_roundtrip (f : FormElement) (hreq : f.required = true)
    (horig : f.originalRequired = none)
    (initValue : Option String) (vs : List String) (v : String) :
    (toggleConditionalField v (applyToggles vs (initConditionalField initValue f))).required
      = conditionCheck f.fieldCondition v
    ∧ (toggleConditionalField v (applyToggles vs (initConditionalField initValue f))).fieldAriaHidden
      = some (boolString !(conditionCheck f.fieldCondition v)) := by
  obtain ⟨hsnap, hcond⟩ := init_snapshot initValue f hreq horig
  obtain ⟨hsnap2, hcond2⟩ := applyToggles_preserves vs (initConditionalField initValue f)
  constructor
  · rw [toggle_required_of_snapshot _ _ (hsnap2.trans hsnap), hcond2, hcond]
  · rw [toggle_fieldAriaHidden, hcond2, hcond]

/-- C2, witness: the example controlled field, initialized against
controller value `Basic`, toggled through `Pro` then `Basic`, then shown
again by a `Pro` change event. -/
theorem original_required_roundtrip_witness :
    exampleControlled.required = true
    ∧ exampleControlled.originalRequired = none
    ∧ (toggleConditionalField "Pro" (applyToggles ["Pro", "Basic"]
        (initConditionalField (some "Basic") exampleControlled))).required
      = conditionCheck exampleControlled.fieldCondition "Pro" :=
  ⟨rfl, rfl,
    (original_required_roundtrip exampleControlled rfl rfl (some "Basic") ["Pro", "Basic"] "Pro").1⟩

/-- C3, counterexample.  The two paths disagree at the empty controller
value: a checked radio or a select can hold value `""`, which the
initialization path treats as unresolved (hide), while the update path
normalizes it to `""`, a substring of every condition (show). -/
theorem init_toggle_empty_value_mismatch :
    (initConditionalField (some "") exampleControlled).fieldAriaHidden = some "true"
    ∧ (toggleConditionalField "" exampleControlled).fieldAriaHidden = some "false"
    ∧ (initConditionalField (some "") exampleControlled).fieldAriaHidden
        ≠ (toggleConditionalField "" exampleControlled).fieldAriaHidden := by
  refine ⟨rfl, rfl, by decide⟩

/-- C3, amended.  For every controlled field and every nonempty controller
value, the `aria-hidden` visibility assigned by the initialization path
equals the visibility assigned by the update path on a change event with
that value; the two paths diverge only at the empty value. -/
theorem init_visibility_matches_toggle_update (f : FormElement) (v : String)
    (hv : v ≠ "") :
    (initConditionalField (some v) f).fieldAriaHidden
      = (toggleConditionalField v f).fieldAriaHidden := by
  have ht : jsTruthy (some v) = true := jsTruthyStr_of_ne hv
  rw [initConditionalField, ht, if_pos rfl, Option.getD_some,
    initResolved_fieldAriaHidden, toggle_fieldAriaHidden]

/-- C3, witness: controller value `Pro` on the example controlled field. -/
theorem init_visibility_matches_toggle_update_witness :
    "Pro" ≠ ""
    ∧ (initConditionalField (some "Pro") exampleControlled).fieldAriaHidden
        = (toggleConditionalField "Pro" exampleControlled).fieldAriaHidden :=
  ⟨by decide, init_visibility_matches_toggle_update exampleControlled "Pro" (by decide)⟩

/-- C4, counterexample.  A text control whose conditional is unmet at
submit time still contributes its key: hiding a field sets `aria-hidden`,
strips `required` and drops it from the tab order, but never disables it,
and `generatePayload` excludes only disabled controls. -/
theorem conditional_unmet_field_contributes :
    (toggleConditionalField "Basic" exampleControlled).fieldAriaHidden = some "true"
    ∧ (toggleConditionalField "Basic" exampleControlled).disabled = false
    ∧ getKey (generatePayload [toggleConditionalField "Basic" exampleControlled]) "email"
        = some "me@example.com" :=
  ⟨rfl, rfl, rfl⟩

/-- C4, amended.  The serialized payload excludes disabled controls, and a
radio contributes its value only if checked; but "disabled" does not follow
from "conditional unmet": the visibility toggle never changes `disabled`,
so a hidden non-radio, non-checkbox control still contributes its key. -/
theorem payload_excludes_only_disabled (p : Payload) (e : FormElement) (v : String)
    (h : e.disabled = true ∨ (e.ftype = "radio" ∧ e.checked = false)) :
    payloadStep p e = p ∧ (toggleConditionalField v e).disabled = e.disabled := by
  refine ⟨?_, (toggle_preserves v e).2.2.1⟩
  rcases h with h | ⟨h1, h2⟩
  · simp [payloadStep, h]
  · simp [payloadStep, h1, h2]

/-- C4, witness: a disabled checkbox contributes nothing, and toggling a
condition leaves `disabled` alone. -/
theorem payload_excludes_only_disabled_witness :
    ({ exampleCheckbox with disabled := true } : FormElement).disabled = true
    ∧ payloadStep [] { exampleCheckbox with disabled := true } = []
    ∧ (toggleConditionalField "x" { exampleCheckbox with disabled := true }).disabled
        = ({ exampleCheckbox with disabled := true } : FormElement).disabled :=
  ⟨rfl,
    (payload_excludes_only_disabled [] { exampleCheckbox with disabled := true } "x"
      (Or.inl rfl)).1,
    (payload_excludes_only_disabled [] { exampleCheckbox with disabled := true } "x"
      (Or.inl rfl)).2⟩

/-- C5, code bug.  Attach with no mobile input, let the 30-second cooldown
elapse so the affordance is ready, then click resend once (count 1, within
the limit of 3): the click dispatches the bubbling `otp:resend` event, but
`startTimer` returns immediately because the started flag set by the first
cooldown is never cleared — the affordance stays ready, no interval is
live, and the countdown value is unchanged, contradicting the specified
`ready → loading` restart. -/
theorem resend_click_does_not_restart_cooldown :
    otpReadyState.visibility = ResendVisibility.ready
    ∧ otpReadyState.timerActive = false
    ∧ (resendClick otpReadyState).resendCount = 1
    ∧ (resendClick otpReadyState).resendCount ≤ resendLimit
    ∧ (resendClick otpReadyState).events = ["otp:resend"]
    ∧ (resendClick otpReadyState).visibility = ResendVisibility.ready
    ∧ (resendClick otpReadyState).timerActive = false
    ∧ (resendClick otpReadyState).remaining = otpReadyState.remaining := by
  decide

/-- C6.  Whatever way the submission attempt settles — success, missing
submit target, transport error, or non-2xx response — every control of the
form ends the attempt re-enabled by the final `toggleForm(form, false)`. -/
theorem handleSubmit_reenables_controls (confirmation : Option String)
    (outcome : SubmitOutcome) (controls : List FormElement) (c : FormElement)
    (hc : c ∈ (handleSubmit confirmation outcome controls).controls) :
    c.disabled = false := by
  cases outcome <;>
    · simp only [handleSubmit, toggleForm, List.mem_map] at hc
      obtain ⟨a, -, rfl⟩ := hc
      rfl

/-- C6, witness: a transport error on a one-control form still ends with
that control enabled. -/
theorem handleSubmit_reenables_controls_witness :
    exampleCheckbox ∈
      (handleSubmit none SubmitOutcome.transportError
        [{ exampleCheckbox with disabled := true }]).controls
    ∧ exampleCheckbox.disabled = false :=
  ⟨by decide,
    handleSubmit_reenables_controls none SubmitOutcome.transportError
      [{ exampleCheckbox with disabled := true }] exampleCheckbox (by decide)⟩

/-- C7.  On a submit that passes constraint validation: the sentinel value
`12345` navigates to `/thank-you`; any other value keeps the page (no
navigation), reveals the retry message, and refocuses the otp input whose
value is left untouched. -/
theorem otp_submit_sentinel_behavior (s : OtpSubmitState)
    (hvalid : s.formValid = true) (hloc : s.location = none) :
    (s.otpValue = "12345" → (otpVerifySubmit s).location = some "/thank-you")
    ∧ (s.otpValue ≠ "12345" →
        (otpVerifySubmit s).location = none
        ∧ (otpVerifySubmit s).retryVisible = true
        ∧ (otpVerifySubmit s).focused = some "otp"
        ∧ (otpVerifySubmit s).otpValue = s.otpValue) := by
  constructor
  · intro h
    simp [otpVerifySubmit, hvalid, h, otpSuccessRedirect]
  · intro h
    have hb : (s.otpValue == "12345") = false := by simp [h]
    simp [otpVerifySubmit, hvalid, hloc, hb]

/-- C7, witness: a wrong code `11111` on a valid-constraint submit. -/
theorem otp_submit_sentinel_behavior_witness :
    exampleOtpSubmit.formValid = true
    ∧ exampleOtpSubmit.location = none
    ∧ ((exampleOtpSubmit.otpValue = "12345" →
          (otpVerifySubmit exampleOtpSubmit).location = some "/thank-you")
       ∧ (exampleOtpSubmit.otpValue ≠ "12345" →
          (otpVerifySubmit exampleOtpSubmit).location = none
          ∧ (otpVerifySubmit exampleOtpSubmit).retryVisible = true
          ∧ (otpVerifySubmit exampleOtpSubmit).focused = some "otp"
          ∧ (otpVerifySubmit exampleOtpSubmit).otpValue = exampleOtpSubmit.otpValue)) :=
  ⟨rfl, rfl, otp_submit_sentinel_behavior exampleOtpSubmit rfl rfl⟩

/-- C10.  When the form has no input named `otp`, or that input has no
`.form-field` ancestor, `initOtpBehavior` returns before its first
mutation: no node is appended, no listener attached, no timer started —
the form is exactly as `buildForm` left it. -/
theorem initOtpBehavior_frame (form : OtpFormState)
    (h : form.hasOtpInput = false ∨ form.otpInFormField = false) :
    initOtpBehavior form = form := by
  rcases h with h | h
  · simp [initOtpBehavior, h]
  · simp [initOtpBehavior, h]

/-- C10, witness: the example form with no otp input. -/
theorem initOtpBehavior_frame_witness :
    exampleNoOtpForm.hasOtpInput = false
    ∧ initOtpBehavior exampleNoOtpForm = exampleNoOtpForm :=
  ⟨rfl, initOtpBehavior_frame exampleNoOtpForm (Or.inl rfl)⟩

/-- Concrete option split used by the Field Builder claims. -/
lemma splitOptions_pair : splitOptions "A,B" = ["A", "B"] := rfl

/-- C8, counterexample.  For a default text input with help, the built
subtree is label, control, help: the help element exists with the derived
id and the control references it via `aria-describedby`, yet it is rendered
after the control, not before it as claimed. -/
theorem help_rendered_after_control :
    helpIds (buildField (mkHelpedField "text" "email" "We never share" none)).children
        = ["email-help"]
    ∧ firstControlDescribedby
        (buildField (mkHelpedField "text" "email" "We never share" none)).children
        = some "email-help"
    ∧ helpBeforeControl
        (buildField (mkHelpedField "text" "email" "We never share" none)).children
        = false :=
  ⟨rfl, rfl, rfl⟩

/-- C8, amended.  For every control type, a nonempty help text yields
exactly one help element whose id is the field's generated id plus the
fixed `-help` suffix; but placement and referencing vary by branch: only a
textarea renders the help before its control; a default input renders it
after the control though still linked via `aria-describedby`; radio or
checkbox groups, toggles and selects append the help after their controls
and set no `aria-describedby` at all. -/
theorem buildField_help_wiring (name htext : String) (hn : name ≠ "") (hh : htext ≠ "") :
    (helpIds (buildField (mkHelpedField "textarea" name htext none)).children
        = [generateId name none ++ "-help"]
      ∧ helpBeforeControl (buildField (mkHelpedField "textarea" name htext none)).children = true
      ∧ firstControlDescribedby (buildField (mkHelpedField "textarea" name htext none)).children
        = some (generateId name none ++ "-help"))
    ∧ (helpIds (buildField (mkHelpedField "text" name htext none)).children
        = [generateId name none ++ "-help"]
      ∧ helpBeforeControl (buildField (mkHelpedField "text" name htext none)).children = false
      ∧ firstControlDescribedby (buildField (mkHelpedField "text" name htext none)).children
        = some (generateId name none ++ "-help"))
    ∧ (helpIds (buildField (mkHelpedField "radio" name htext (some "A,B"))).children
        = [generateId name none ++ "-help"]
      ∧ helpBeforeControl (buildField (mkHelpedField "radio" name htext (some "A,B"))).children
        = false
      ∧ firstControlDescribedby
          (buildField (mkHelpedField "radio" name htext (some "A,B"))).children = none)
    ∧ (helpIds (buildField (mkHelpedField "toggle" name htext none)).children
        = [generateId name none ++ "-help"]
      ∧ helpBeforeControl (buildField (mkHelpedField "toggle" name htext none)).children = false
      ∧ firstControlDescribedby
          (buildField (mkHelpedField "toggle" name htext none)).children = none)
    ∧ (helpIds (buildField (mkHelpedField "select" name htext (some "A,B"))).children
        = [generateId name none ++ "-help"]
      ∧ helpBeforeControl (buildField (mkHelpedField "select" name htext (some "A,B"))).children
        = false
      ∧ firstControlDescribedby
          (buildField (mkHelpedField "select" name htext (some "A,B"))).children = none) := by
  have h1 : jsTruthyStr name = true := jsTruthyStr_of_ne hn
  have h2 : jsTruthyStr htext = true := jsTruthyStr_of_ne hh
  refine ⟨⟨?_, ?_, ?_⟩, ⟨?_, ?_, ?_⟩, ⟨?_, ?_, ?_⟩, ⟨?_, ?_, ?_⟩, ⟨?_, ?_, ?_⟩⟩ <;>
    simp [mkHelpedField, buildField, buildOptions, buildToggle, buildSelect,
      buildOptionInput, buildLabel, writeHelpText, jsOr, jsTruthy, h1, h2,
      generateId, splitOptions_pair, helpIds, helpBeforeControl, firstIdxFrom,
      isHelpNode, isControlNode, firstControlDescribedby]

/-- C8, witness: the amended wiring at the concrete field `email` with help
text `We never share`. -/
theorem buildField_help_wiring_witness :
    "email" ≠ ("" : String)
    ∧ "We never share" ≠ ("" : String)
    ∧ helpIds (buildField (mkHelpedField "textarea" "email" "We never share" none)).children
        = [generateId "email" none ++ "-help"]
    ∧ helpBeforeControl
        (buildField (mkHelpedField "textarea" "email" "We never share" none)).children = true :=
  ⟨by decide, by decide,
    (buildField_help_wiring "email" "We never share" (by decide) (by decide)).1.1,
    (buildField_help_wiring "email" "We never share" (by decide) (by decide)).1.2.1⟩

/-- Appending to a nonempty string stays nonempty. -/
lemma str_append_ne_empty {s : String} (t : String) (h : s ≠ "") : s ++ t ≠ "" := by
  intro hc
  have hd : s.data ++ t.data = [] := congrArg String.data hc
  have h1 : s.data = [] := (List.append_eq_nil.mp hd).1
  apply h
  cases s
  simp_all

/-- Reading back the key just written. -/
lemma getKey_setKey_self (p : Payload) (k v : String) :
    getKey (setKey p k v) k = some v := by
  induction p with
  | nil => simp [setKey, getKey]
  | cons a p ih =>
    obtain ⟨k', v'⟩ := a
    by_cases h : k' = k
    · simp [setKey, getKey, h]
    · have h' : (k' == k) = false := beq_eq_false_iff_ne.mpr h
      simp [setKey, getKey, h', ih]

/-- Writing under one key leaves every other key's lookup unchanged. -/
lemma getKey_setKey_ne (p : Payload) (k k' v : String) (h : k ≠ k') :
    getKey (setKey p k v) k' = getKey p k' := by
  have hk : (k == k') = false := beq_eq_false_iff_ne.mpr h
  induction p with
  | nil => simp [setKey, getKey, hk]
  | cons a p ih =>
    obtain ⟨a1, a2⟩ := a
    by_cases ha : a1 = k
    · have hne : (a1 == k') = false := beq_eq_false_iff_ne.mpr (ha ▸ h)
      simp [setKey, getKey, ha, hk, hne]
    · have ha' : (a1 == k) = false := beq_eq_false_iff_ne.mpr ha
      simp only [setKey, ha', Bool.false_eq_true, if_false]
      cases hpa : a1 == k' <;> simp [getKey, hpa, ih]

/-- A `form.elements` entry named differently does not affect the lookup
under `n`. -/
lemma payloadStep_other (p : Payload) (e : FormElement) (n : String)
    (h : e.name ≠ n) :
    getKey (payloadStep p e) n = getKey p n := by
  unfold payloadStep
  split_ifs <;> simp [getKey_setKey_ne _ _ _ _ h]

/-- The checkbox branch of the payload loop: a checked, enabled checkbox
comma-appends its value onto whatever its name already accumulated; an
unchecked one contributes nothing. -/
lemma payloadStep_checkbox (p : Payload) (e : FormElement) (n : String)
    (hname : e.name = n) (hn : n ≠ "") (hft : e.ftype = "checkbox")
    (hdis : e.disabled = false) :
    getKey (payloadStep p e) n =
      if e.checked then some (accAppend (getKey p n) e.value) else getKey p n := by
  subst hname
  have hguard : (jsTruthyStr e.name && !e.disabled) = true := by
    simp [jsTruthyStr_of_ne hn, hdis]
  have hradio : (e.ftype == "radio") = false := by simp [hft]
  have hcheckbox : (e.ftype == "checkbox") = true := by simp [hft]
  unfold payloadStep
  rw [if_pos hguard, if_neg (by simp [hradio]), if_pos hcheckbox]
  cases hck : e.checked
  · simp
  · simp only [if_true]
    unfold accAppend
    cases hget : jsTruthy (getKey p e.name)
    · simp only [hget, Bool.false_eq_true, if_false, getKey_setKey_self]
    · simp only [hget, if_true, getKey_setKey_self]

/-- Folding the payload loop over any element list in which every control
named `n` is an enabled checkbox accumulates, under `n`, exactly the
comma-fold of the checked values onto what the payload already held. -/
lemma generatePayload_group_aux (n : String) (hn : n ≠ "") :
    ∀ (es : List FormElement) (p : Payload),
      (∀ e ∈ es, e.name = n →
        e.ftype = "checkbox" ∧ e.disabled = false ∧ e.value ≠ "") →
      getKey (List.foldl payloadStep p es) n
        = joinAcc (getKey p n) (checkedValuesFor n es) := by
  intro es
  induction es with
  | nil => intro p _; rfl
  | cons e es ih =>
    intro p hg
    have hgs : ∀ x ∈ es, x.name = n →
        x.ftype = "checkbox" ∧ x.disabled = false ∧ x.value ≠ "" :=
      fun x hx => hg x (by simp [hx])
    rw [List.foldl_cons, ih _ hgs]
    by_cases hname : e.name = n
    · obtain ⟨hft, hdis, -⟩ := hg e (by simp) hname
      rw [payloadStep_checkbox p e n hname hn hft hdis]
      cases hck : e.checked
      · have hcv : checkedValuesFor n (e :: es) = checkedValuesFor n es := by
          simp [checkedValuesFor, hck]
        rw [hcv, if_neg (by simp)]
      · have hcv : checkedValuesFor n (e :: es) = e.value :: checkedValuesFor n es := by
          simp [checkedValuesFor, hname, hck]
        rw [hcv, if_pos rfl]
        rfl
    · have hcv : checkedValuesFor n (e :: es) = checkedValuesFor n es := by
        have : (e.name == n) = false := beq_eq_false_iff_ne.mpr hname
        simp [checkedValuesFor, this]
      rw [payloadStep_other p e n hname, hcv]

/-- Comma-folding nonempty values onto a nonempty accumulator yields the
plain comma-join. -/
lemma joinAcc_some_eq :
    ∀ (vs : List String) (j : String), j ≠ "" → (∀ v ∈ vs, v ≠ "") →
      joinAcc (some j) vs = some (commaJoin (j :: vs)) := by
  intro vs
  induction vs with
  | nil => intro j _ _; rfl
  | cons w ws ih =>
    intro j hj hv
    have hjt : jsTruthy (some j) = true := by simpa [jsTruthy] using jsTruthyStr_of_ne hj
    show joinAcc (some (accAppend (some j) w)) ws = _
    rw [show accAppend (some j) w = j ++ "," ++ w by simp [accAppend, hjt]]
    rw [ih (j ++ "," ++ w) (str_append_ne_empty _ (str_append_ne_empty _ hj))
      (fun v hv' => hv v (by simp [hv']))]
    congr 1
    cases ws with
    | nil => rfl
    | cons x xs => simp [commaJoin, String.append_assoc]

/-- Comma-folding nonempty values from an absent key: absent iff no value,
else the plain comma-join. -/
lemma joinAcc_none_eq (vs : List String) (hv : ∀ v ∈ vs, v ≠ "") :
    joinAcc none vs = if vs = [] then none else some (commaJoin vs) := by
  cases vs with
  | nil => rfl
  | cons v ws =>
    show joinAcc (some (accAppend none v)) ws = _
    rw [show accAppend none v = v from rfl,
      joinAcc_some_eq ws v (hv v (by simp)) (fun x hx => hv x (by simp [hx]))]
    simp

/-- C9, counterexample.  The comma-join claim fails on a checked checkbox
with an empty value: the accumulator truthiness test (`payload[name] ?`)
restarts the join after it, so a group with checked values `""` and
`music` serializes to `music`, not to the comma-join `,music`. -/
theorem empty_checkbox_value_breaks_join :
    getKey (generatePayload [{ exampleCheckbox with value := "" },
        { exampleCheckbox with value := "music" }]) "interests"
      = some "music"
    ∧ commaJoin (checkedValuesFor "interests" [{ exampleCheckbox with value := "" },
        { exampleCheckbox with value := "music" }])
      = ",music"
    ∧ getKey (generatePayload [{ exampleCheckbox with value := "" },
        { exampleCheckbox with value := "music" }]) "interests"
      ≠ some (commaJoin (checkedValuesFor "interests"
          [{ exampleCheckbox with value := "" },
           { exampleCheckbox with value := "music" }])) := by
  refine ⟨rfl, rfl, by decide⟩

/-- C9, amended.  In any form whose controls named `n` are enabled
checkboxes with nonempty values, the serialized payload holds, under `n`,
the comma-join of the checked values in DOM order — and no key at all
when none is checked. -/
theorem checkbox_group_comma_join (n : String) (es : List FormElement)
    (hn : n ≠ "")
    (hgroup : ∀ e ∈ es, e.name = n →
      e.ftype = "checkbox" ∧ e.disabled = false ∧ e.value ≠ "") :
    getKey (generatePayload es) n =
      if checkedValuesFor n es = [] then none
      else some (commaJoin (checkedValuesFor n es)) := by
  have haux := generatePayload_group_aux n hn es [] hgroup
  have hvals : ∀ v ∈ checkedValuesFor n es, v ≠ "" := by
    intro v hv
    simp only [checkedValuesFor, List.mem_map, List.mem_filter] at hv
    obtain ⟨e, ⟨he, hcond⟩, rfl⟩ := hv
    have hb := (Bool.and_eq_true _ _).mp hcond
    exact (hgroup e he (eq_of_beq hb.1)).2.2
  rw [generatePayload, haux]
  exact joinAcc_none_eq _ hvals

/-- C9, witness: a two-checkbox group `interests` with `sports` checked and
`music` checked serializes to `sports,music`; with both unchecked the key
is absent. -/
theorem checkbox_group_comma_join_witness :
    "interests" ≠ ("" : String)
    ∧ (∀ e ∈ [exampleCheckbox, { exampleCheckbox with value := "music" }],
        e.name = "interests" →
          e.ftype = "checkbox" ∧ e.disabled = false ∧ e.value ≠ "")
    ∧ getKey (generatePayload [exampleCheckbox,
        { exampleCheckbox with value := "music" }]) "interests"
      = (if checkedValuesFor "interests"
            [exampleCheckbox, { exampleCheckbox with value := "music" }] = [] then none
         else some (commaJoin (checkedValuesFor "interests"
            [exampleCheckbox, { exampleCheckbox with value := "music" }]))) :=
  ⟨by decide, by decide,
    checkbox_group_comma_join "interests"
      [exampleCheckbox, { exampleCheckbox with value := "music" }]
      (by decide) (by decide)⟩

end FormBlock
